import Mathlib

/-!
Verification development for the amoCRM ↔ Google Sheets reconciliation service
(`sync_service.py`).  The Python module is shallowly embedded: dictionaries
become association lists, the worksheet becomes a grid of string cells plus the
cached row index, webhook/poll processing becomes explicit state passing, and
library calls that touch the network or the clock become explicit oracle
parameters (`fetchLead`, `amoGet`, `amoPatch`, `fmtDate`, per-event timestamps).
A backend write that may raise (Sheets quota) is modelled by a `failWrites`
flag; a raised exception is an `Except.error` result carrying the state at the
moment of the raise, exactly mirroring Python's in-place mutation order.
-/

set_option maxRecDepth 4096

/-! ## Association lists (shallow embedding of Python `dict`)

Python dicts keep unique keys; assigning an existing key updates it in place,
`del` removes it, and lookups miss with a default.  `aset` replaces the first
matching key (assoc lists built only through `aset` have unique keys). -/

def alookup {κ α : Type} [DecidableEq κ] : List (κ × α) → κ → Option α
  | [], _ => none
  | (k', v) :: rest, k => if k' = k then some v else alookup rest k

def aset {κ α : Type} [DecidableEq κ] : List (κ × α) → κ → α → List (κ × α)
  | [], k, v => [(k, v)]
  | (k', v') :: rest, k, v =>
      if k' = k then (k, v) :: rest else (k', v') :: aset rest k v

def aerase {κ α : Type} [DecidableEq κ] (m : List (κ × α)) (k : κ) : List (κ × α) :=
  m.filter (fun p => p.1 ≠ k)

def agetD {κ : Type} [DecidableEq κ] (m : List (κ × String)) (k : κ) : String :=
  (alookup m k).getD ""

/-! ## String helpers mirroring the Python string operations used -/

/-- `str.lower()` restricted to the ASCII and Cyrillic ranges that occur in the
pipeline names and configuration keywords of this service. -/
def pyLowerChar (c : Char) : Char :=
  if 'A' ≤ c ∧ c ≤ 'Z' then Char.ofNat (c.toNat + 32)
  else if 'А' ≤ c ∧ c ≤ 'Я' then Char.ofNat (c.toNat + 32)
  else if c = 'Ё' then 'ё'
  else c

def pyLower (s : String) : String := String.mk (s.data.map pyLowerChar)

/-- `str.upper()` restricted to the ASCII and Cyrillic ranges that occur in the
contact custom-field names of this service. -/
def pyUpperChar (c : Char) : Char :=
  if 'a' ≤ c ∧ c ≤ 'z' then Char.ofNat (c.toNat - 32)
  else if 'а' ≤ c ∧ c ≤ 'я' then Char.ofNat (c.toNat - 32)
  else if c = 'ё' then 'Ё'
  else c

def pyUpper (s : String) : String := String.mk (s.data.map pyUpperChar)

/-- `needle.isPre hay`: is `needle` a leading run of `hay`? -/
def chPre : List Char → List Char → Bool
  | [], _ => true
  | _ :: _, [] => false
  | a :: as, b :: bs => a = b && chPre as bs

/-- Python's `needle in hay` substring test. -/
def chSub (needle : List Char) : List Char → Bool
  | [] => needle.isEmpty
  | h :: t => chPre needle (h :: t) || chSub needle t

def strContains (hay needle : String) : Bool := chSub needle.data hay.data

/-- `" ".join(field_name.split())` from `build_row`: collapse whitespace runs. -/
def normSpaces (s : String) : String :=
  String.intercalate " " ((s.split (fun c => c.isWhitespace)).filter (fun w => w ≠ ""))

/-- Python `str.isdigit()` on the strings this service feeds it. -/
def pyIsDigit (s : String) : Bool := s ≠ "" && s.data.all (fun c => c.isDigit)

/-- Drop leading whitespace characters. -/
def dropWs : List Char → List Char
  | [] => []
  | c :: cs => if c.isWhitespace then dropWs cs else c :: cs

/-- Python `str.strip()` as structural recursion over the character list. -/
def pyStrip (s : String) : String :=
  String.mk (List.reverse (dropWs (List.reverse (dropWs s.data))))

/-! ## Module-level constants of `sync_service.py` -/

def COLUMNS : List String :=
  ["Компания", "ID", "Заказ №", "Ф.И.О.", "Контактный номер", "Дата заказа",
   "Дата доставка", "Код сотрудника", "Ответственный", "Группа", "Продукт 1",
   "Количество 1", "Продукт 2", "Количество 2", "Бюджет сделки", "Регион",
   "Адрес", "Тип продажи", "Продажа в рассрочку", "Воронка", "Статус"]

/-- Raw AmoCRM status name → display name written to the sheet. -/
def STATUS_DISPLAY_MAP : List (String × String) :=
  [("Неразобранное", "Неразобранное"),
   ("КОНСУЛТАЦИЯ", "Консультация"),
   ("Консультация", "Консультация"),
   ("ДУМКА", "Раздумье"),
   ("Раздумье", "Раздумье"),
   ("Заказ", "Заказ"),
   ("ЗАКАЗ", "Заказ"),
   ("NOMERATSIYALANMAGAN ZAKAZ", "В процессе"),
   ("Заказ без нумерации", "В процессе"),
   ("ЗАКАЗ БЕЗ НУМЕРАЦИИ", "В процессе"),
   ("ЗАЗАЗ БЕЗ НУМЕРАЦИИ", "В процессе"),
   ("ЗАКАЗ ОТПРАВЛЕН", "У курера"),
   ("Заказ отправлен", "У курера"),
   ("OTKAZ", "Отказ"),
   ("ОТКАЗ", "Отказ"),
   ("Отказ", "Отказ"),
   ("Успешно", "Успешно"),
   ("Успешно ", "Успешно"),
   ("Успешно реализовано", "Успешно"),
   ("Закрыто и не реализовано", "Закрыто и не реализовано")]

def statusDisplay (s : String) : String := (alookup STATUS_DISPLAY_MAP s).getD s

def ID_COL_INDEX : Nat := COLUMNS.indexOf "ID"
def STATUS_COL_INDEX : Nat := COLUMNS.indexOf "Статус"
def ORDER_NUM_COL_INDEX : Nat := COLUMNS.indexOf "Заказ №"

def ORDER_NUM_FILLED_AMO_STATUS_DISPLAY : String := "У курера"

/-- Sheet dropdown value → AMO display name used for status-id lookup. -/
def SHEET_STATUS_TO_AMO_DISPLAY : List (String × String) :=
  [("В процессе", "В процессе"),
   ("У курера", "Успешно"),
   ("Успешно", "Успешно"),
   ("Отказ", "Отказ")]

/-- AMO display status → value written to the sheet for a tracked lead. -/
def AMO_STATUS_TO_SHEET_OVERRIDE : List (String × String) :=
  [("Раздумье", "Отказ")]

/-! ## Webhook dedup window (`SyncService._is_duplicate_webhook`) -/

abbrev DedupState := List (String × Int)

def dedupKey (leadId : String) (statusId : Int) : String :=
  leadId ++ ":" ++ toString statusId

/-- Keep predicate of the opportunistic eviction: entries at most `2×TTL` old
survive (`del` for `now - ts > ttl * 2`). -/
def dedupKeep (now ttl : Int) (p : String × Int) : Bool := decide (now - p.2 ≤ ttl * 2)

/-- `_is_duplicate_webhook`: evict entries older than `2×TTL`, then report a
duplicate if the key was processed within the TTL; otherwise record `now`. -/
def isDuplicateWebhook (dd : DedupState) (leadId : String) (statusId : Int)
    (now ttl : Int) : Bool × DedupState :=
  let key := dedupKey leadId statusId
  let dd1 := dd.filter (dedupKeep now ttl)
  match alookup dd1 key with
  | some ts => if now - ts < ttl then (true, dd1) else (false, aset dd1 key now)
  | none => (false, aset dd1 key now)

/-! ## SyncState (`.sync_state.json` maps) -/

structure SyncState where
  sheetStatusByLead : List (String × String)
  sheetOrderNumberByLead : List (String × String)
  leadExpiry : List (String × Int)
deriving DecidableEq, Repr

def rememberSheetStatus (st : SyncState) (leadId statusName : String) : SyncState :=
  { st with sheetStatusByLead := aset st.sheetStatusByLead leadId statusName }

def getKnownSheetStatus (st : SyncState) (leadId : String) : String :=
  agetD st.sheetStatusByLead leadId

def rememberSheetOrderNumber (st : SyncState) (leadId orderNumber : String) : SyncState :=
  { st with sheetOrderNumberByLead := aset st.sheetOrderNumberByLead leadId orderNumber }

def getKnownOrderNumber (st : SyncState) (leadId : String) : String :=
  agetD st.sheetOrderNumberByLead leadId

def rememberLeadExpiry (st : SyncState) (leadId : String) (expiryTs : Int) : SyncState :=
  { st with leadExpiry := aset st.leadExpiry leadId expiryTs }

/-- `is_lead_expired`: the monitoring window has passed (`time.time() >= expiry`). -/
def isLeadExpired (st : SyncState) (leadId : String) (now : Int) : Bool :=
  match alookup st.leadExpiry leadId with
  | some e => decide (e ≤ now)
  | none => false

/-- `forget_lead`: drop every tracking entry for the lead. -/
def forgetLead (st : SyncState) (leadId : String) : SyncState :=
  { sheetStatusByLead := aerase st.sheetStatusByLead leadId
    sheetOrderNumberByLead := aerase st.sheetOrderNumberByLead leadId
    leadExpiry := aerase st.leadExpiry leadId }

/-- `expire_finished_leads`: purge every lead whose expiry timestamp passed. -/
def expireFinishedLeads (st : SyncState) (now : Int) : SyncState :=
  ((st.leadExpiry.filter (fun p => decide (p.2 ≤ now))).map (fun p => p.1)).foldl
    forgetLead st

/-- `_EXPIRY_SECONDS`: terminal sheet statuses carrying a monitoring lifetime. -/
def EXPIRY_SECONDS : List (String × Int) :=
  [("Успешно", 12 * 3600), ("Отказ", 24 * 3600)]

/-- `_set_expiry_for_status`: arm (or overwrite) the countdown when configured. -/
def setExpiryForStatus (st : SyncState) (leadId statusDisp : String) (now : Int) : SyncState :=
  match alookup EXPIRY_SECONDS statusDisp with
  | some secs => rememberLeadExpiry st leadId (now + secs)
  | none => st

/-! ## The worksheet model (`SheetSync`, one active tab)

`grid` is the full cell matrix as returned by `get_all_values` (row 1 is the
header).  `rowIndexOpt`/`rowCount` are the in-memory caches; `reads` counts
full-grid reads; `failWrites` makes every backend write raise (quota error). -/

structure WsState where
  grid : List (List String)
  rowIndexOpt : Option (List (String × Nat))
  rowCount : Nat
  reads : Nat
  failWrites : Bool
deriving DecidableEq, Repr

def padTo (r : List String) (n : Nat) : List String :=
  r ++ List.replicate (n - r.length) ""

/-- Overwrite row `rowNum` (1-based) starting at column A; cells beyond the
written values keep their old content, rows beyond the grid are created. -/
def writeRowAt (g : List (List String)) (rowNum : Nat) (vals : List String) :
    List (List String) :=
  let g' := if rowNum ≤ g.length then g else g ++ List.replicate (rowNum - g.length) []
  let old := (g'.get? (rowNum - 1)).getD []
  g'.set (rowNum - 1) (vals ++ old.drop vals.length)

/-- Overwrite a single cell (1-based row and column). -/
def writeCellAt (g : List (List String)) (rowNum colNum : Nat) (v : String) :
    List (List String) :=
  let g' := if rowNum ≤ g.length then g else g ++ List.replicate (rowNum - g.length) []
  let old := (g'.get? (rowNum - 1)).getD []
  g'.set (rowNum - 1) ((padTo old colNum).set (colNum - 1) v)

/-- `_build_row_index` body: non-header rows with a non-empty trimmed ID cell,
keyed by that cell, valued by the 1-based row number (later rows win). -/
def buildIdxData : List (List String) → Nat → List (String × Nat) → List (String × Nat)
  | [], _, acc => acc
  | r :: rest, rowNum, acc =>
      let acc' :=
        match r.get? ID_COL_INDEX with
        | some cell => let lid := pyStrip cell; if lid ≠ "" then aset acc lid rowNum else acc
        | none => acc
      buildIdxData rest (rowNum + 1) acc'

def buildIdx (g : List (List String)) : List (String × Nat) :=
  match g with
  | [] => []
  | _ :: dataRows => buildIdxData dataRows 2 []

/-- `_build_row_index`: one full read, then cache index and row count. -/
def buildRowIndexS (ws : WsState) : WsState :=
  { ws with rowIndexOpt := some (buildIdx ws.grid), rowCount := ws.grid.length,
            reads := ws.reads + 1 }

/-- `_get_row_index`: build the cache on first touch only. -/
def ensureIndex (ws : WsState) : WsState :=
  match ws.rowIndexOpt with
  | some _ => ws
  | none => buildRowIndexS ws

/-- `upsert_row`: O(1) overwrite when the id is indexed, else append at the
next known-free row and extend the index in memory.  A failing backend write
raises before any index/count mutation. -/
def upsertRow (ws : WsState) (rowData : List String) (_pipelineDisplay : String) :
    WsState × Except String Nat :=
  let leadId := (rowData.get? ID_COL_INDEX).getD ""
  let ws1 := ensureIndex ws
  match alookup (ws1.rowIndexOpt.getD []) leadId with
  | some rn =>
      if ws1.failWrites then (ws1, .error "quota")
      else ({ ws1 with grid := writeRowAt ws1.grid rn rowData }, .ok rn)
  | none =>
      let nextRow := ws1.rowCount + 1
      if ws1.failWrites then (ws1, .error "quota")
      else ({ ws1 with grid := writeRowAt ws1.grid nextRow rowData,
                       rowIndexOpt := some (aset (ws1.rowIndexOpt.getD []) leadId nextRow),
                       rowCount := nextRow }, .ok nextRow)

/-- `update_status`: cached row lookup, then one cell write in the status
column; a missing row is a silent no-op.  The pipeline display argument is
ignored (`_sheet_for_pipeline` records everything on one tab). -/
def updateStatusS (ws : WsState) (leadId statusName _pipelineDisplay : String) :
    WsState × Except String Unit :=
  let ws1 := ensureIndex ws
  match alookup (ws1.rowIndexOpt.getD []) leadId with
  | none => (ws1, .ok ())
  | some rn =>
      if ws1.failWrites then (ws1, .error "quota")
      else ({ ws1 with grid := writeCellAt ws1.grid rn (STATUS_COL_INDEX + 1) statusName },
            .ok ())

/-- `iter_lead_statuses`: non-header rows wide enough to hold the status
column, keyed by the trimmed ID cell, yielding status and order number. -/
structure RowItem where
  leadId : String
  status : String
  orderNumber : String
deriving DecidableEq, Repr

def iterLeadStatuses (ws : WsState) : List RowItem :=
  (ws.grid.drop 1).filterMap (fun row =>
    if row.length ≤ max ID_COL_INDEX STATUS_COL_INDEX then none
    else
      let lid := pyStrip ((row.get? ID_COL_INDEX).getD "")
      let status := pyStrip ((row.get? STATUS_COL_INDEX).getD "")
      let orderNum :=
        if ORDER_NUM_COL_INDEX < row.length then pyStrip ((row.get? ORDER_NUM_COL_INDEX).getD "")
        else ""
      if lid ≠ "" then some ⟨lid, status, orderNum⟩ else none)

/-! ## Lead data and `build_row`

CRM entities as this service reads them.  Cell values are modelled as strings
(Python stringifies every cell on write); `values` entries keep an `Option` to
represent JSON `null`.  `fmtDate` is the oracle for
`datetime.fromtimestamp(..).strftime("%d.%m.%Y")`. -/

structure CField where
  fieldCode : String
  fieldName : String
  values : List (Option String)
deriving DecidableEq, Repr

structure Contact where
  name : String
  customFields : List CField
deriving DecidableEq, Repr

structure Lead where
  id : String
  price : String
  name : String
  statusId : Int
  pipelineId : Int
  updatedAt : Int
  respUserId : Int
  contacts : List Contact
  companies : List String
  customFields : List CField
deriving DecidableEq, Repr

def isPhoneCF (cf : CField) : Bool :=
  cf.fieldCode = "PHONE" || pyUpper cf.fieldName = "PHONE" || pyUpper cf.fieldName = "ТЕЛЕФОН"

/-- Inner loop of the contact scan: the first phone-typed field with a
non-empty `values` list yields its first value and stops the scan. -/
def scanPhone : List CField → String → String
  | [], ph => ph
  | cf :: rest, ph =>
      if isPhoneCF cf then
        if cf.values.isEmpty then scanPhone rest ph
        else ((cf.values.head?.getD none).getD "")
      else scanPhone rest ph

/-- Outer contact loop of `build_row`: each contact may supply a name; the
loop stops at the first contact producing a non-empty phone. -/
def contactsFold : List Contact → String → String → String × String
  | [], nm, ph => (nm, ph)
  | c :: rest, nm, ph =>
      let nm' := if c.name ≠ "" then c.name else nm
      let ph' := scanPhone c.customFields ph
      if ph' ≠ "" then (nm', ph') else contactsFold rest nm' ph'

/-- One iteration of the custom-fields loop of `build_row`. -/
def applyCF (fmtDate : String → String) (staff : List (String × String))
    (mapped : List (String × String)) (cf : CField) : List (String × String) :=
  let norm := normSpaces cf.fieldName
  let vals := cf.values
  if norm ∈ COLUMNS ∧ vals ≠ [] then
    let valJoin := String.intercalate ", " (vals.filterMap id)
    let val :=
      if norm = "Дата заказа" ∨ norm = "Дата доставка" then
        match vals.head? with
        | some (some fv) =>
            if fv = "0" then "" else if pyIsDigit fv then fmtDate fv else valJoin
        | _ => valJoin
      else valJoin
    let m1 := aset mapped norm val
    if norm = "Код сотрудника" ∧ staff ≠ [] then
      let clean := pyStrip val
      let clean2 := match clean.toNat? with | some n => toString n | none => clean
      match alookup staff clean2 with
      | some nm => aset m1 "Ответственный" nm
      | none => m1
    else m1
  else mapped

/-- `build_row`: project a lead onto the fixed column schema.  The
pipeline-derived Статус and Воронка cells are re-applied after the
custom-fields loop so same-named CRM custom fields can never overwrite them.
`pdm` is the module-level `PIPELINE_DISPLAY_MAP` (populated at startup). -/
def buildRow (pdm staff : List (String × String)) (fmtDate : String → String)
    (lead : Lead) (statusName pipelineName respName : String) : List String :=
  let displayStatus := statusDisplay statusName
  let displayPipeline := (alookup pdm pipelineName).getD pipelineName
  let nmPh := contactsFold lead.contacts lead.name ""
  let companyName := (lead.companies.head?).getD ""
  let mapped0 : List (String × String) :=
    [("ID", lead.id), ("Бюджет сделки", lead.price), ("Статус", displayStatus),
     ("Воронка", displayPipeline), ("Ф.И.О.", nmPh.1), ("Контактный номер", nmPh.2),
     ("Компания", companyName), ("Ответственный", respName)]
  let mapped1 := lead.customFields.foldl (applyCF fmtDate staff) mapped0
  let mapped2 := aset (aset mapped1 "Статус" displayStatus) "Воронка" displayPipeline
  COLUMNS.map (fun c => agetD mapped2 c)

/-! ## Service configuration and environment oracles -/

/-- The resolved runtime configuration and startup mappings of `SyncService`. -/
structure Cfg where
  triggerStatusIds : List Int
  terminalStatusIdToName : List (String × String)
  pipelineIdToName : List (Int × String)
  statusIdToDisplayName : List (Int × String)
  pipelineDisplayMap : List (String × String)
  leadsCreatedAfter : Int
  pipelineKeyword : String
  dedupTtl : Int
  triggerStatusName : String
  pipelineIdCfg : Int
  statusMap : List (String × Int)
  displayToId : List (Int × List (String × Int))
  nameToId : List (Int × List (String × Int))

/-- Body of a `PATCH /api/v4/leads/{id}` issued by the service; `orderField`
is the value written to custom field 987889 when present. -/
structure PatchBody where
  statusId : Int
  pipelineId : Int
  orderField : Option String
deriving DecidableEq, Repr

/-- External-world oracles: the CRM (`GET`/`PATCH`), the staff sheet mapping,
the users map, and the date formatter. `fetchLead` returning `none` models a
raised exception in the webhook re-fetch (caught and fallen back from). -/
structure Env where
  fetchLead : String → Option Lead
  amoGet : String → Except String Lead
  amoPatch : String → PatchBody → Except String Unit
  staff : List (String × String)
  usersMap : List (Int × String)
  fmtDate : String → String

/-! ## Webhook processing (`SyncService.process_webhook_leads`) -/

/-- Per-lead outcome; the Python code tallies these into the returned counter
dict (`guardSkip`, `statusMismatch` and `trackedMismatch` all feed the
`skipped_status_mismatch` counter). -/
inductive Outcome where
  | noId
  | duplicate
  | expired
  | statusMismatch
  | tooOld
  | keywordSkip
  | triggerWritten
  | terminalWritten
  | trackedWritten
  | guardSkip
  | trackedMismatch
deriving DecidableEq, Repr

/-- The branch body applied to the freshly resolved lead `full` and status id
(steps: cutoff filter, pipeline-keyword filter, trigger / terminal / tracked
classification, precedence guard, sheet write, state recording). -/
def applyClassified (cfg : Cfg) (env : Env) (st : SyncState) (ws : WsState)
    (full : Lead) (statusId : Int) (leadId knownStatus : String) (now : Int) :
    SyncState × WsState × Except String Outcome :=
  if cfg.leadsCreatedAfter ≠ 0 ∧ full.updatedAt ≠ 0 ∧ full.updatedAt < cfg.leadsCreatedAfter then
    (st, ws, .ok .tooOld)
  else if cfg.pipelineKeyword ≠ "" ∧
      ¬ strContains (pyLower ((alookup cfg.pipelineIdToName full.pipelineId).getD ""))
          cfg.pipelineKeyword then
    (st, ws, .ok .keywordSkip)
  else if statusId ∈ cfg.triggerStatusIds then
    let triggerDisplay := statusDisplay cfg.triggerStatusName
    let pipelineName := (alookup cfg.pipelineIdToName full.pipelineId).getD ""
    let pipelineDisp := (alookup cfg.pipelineDisplayMap pipelineName).getD pipelineName
    let respName := (alookup env.usersMap full.respUserId).getD (toString full.respUserId)
    let currentStatusName := (alookup cfg.statusIdToDisplayName statusId).getD triggerDisplay
    let row := buildRow cfg.pipelineDisplayMap env.staff env.fmtDate full
        currentStatusName pipelineName respName
    match upsertRow ws row pipelineDisp with
    | (ws', .ok _) =>
        (rememberSheetOrderNumber (rememberSheetStatus st leadId currentStatusName) leadId "",
         ws', .ok .triggerWritten)
    | (ws', .error e) => (st, ws', .error e)
  else
    match alookup cfg.terminalStatusIdToName (toString statusId) with
    | some terminalName =>
        let pName := (alookup cfg.pipelineIdToName full.pipelineId).getD ""
        let pDisp := (alookup cfg.pipelineDisplayMap pName).getD pName
        let sheetDisp := (alookup AMO_STATUS_TO_SHEET_OVERRIDE terminalName).getD terminalName
        if sheetDisp = "У курера" ∧ knownStatus = "В процессе" then (st, ws, .ok .guardSkip)
        else
          match updateStatusS ws leadId sheetDisp pDisp with
          | (ws', .ok _) =>
              (setExpiryForStatus (rememberSheetStatus st leadId sheetDisp) leadId sheetDisp now,
               ws', .ok .terminalWritten)
          | (ws', .error e) => (st, ws', .error e)
    | none =>
        if knownStatus ≠ "" then
          let newStatusDisplay := (alookup cfg.statusIdToDisplayName statusId).getD (toString statusId)
          let pName := (alookup cfg.pipelineIdToName full.pipelineId).getD ""
          let pDisp := (alookup cfg.pipelineDisplayMap pName).getD pName
          let sheetDisp :=
            (alookup AMO_STATUS_TO_SHEET_OVERRIDE newStatusDisplay).getD newStatusDisplay
          if sheetDisp = "У курера" ∧ knownStatus = "В процессе" then (st, ws, .ok .guardSkip)
          else
            match updateStatusS ws leadId sheetDisp pDisp with
            | (ws', .ok _) =>
                (setExpiryForStatus (rememberSheetStatus st leadId sheetDisp) leadId sheetDisp now,
                 ws', .ok .trackedWritten)
            | (ws', .error e) => (st, ws', .error e)
        else (st, ws, .ok .trackedMismatch)

/-- Steps of `process_webhook_leads` after the dedup check: expiry skip,
trigger/terminal/known classification, authoritative re-fetch (webhook payload
used only when the CRM GET raises), then `applyClassified`. -/
def processAfterDedup (cfg : Cfg) (env : Env) (st : SyncState) (ws : WsState)
    (w : Lead) (leadId : String) (whStatusId : Int) (now : Int) :
    SyncState × WsState × Except String Outcome :=
  if isLeadExpired st leadId now then (st, ws, .ok .expired)
  else
    let isTrig := whStatusId ∈ cfg.triggerStatusIds
    let isTerm := (alookup cfg.terminalStatusIdToName (toString whStatusId)).isSome
    let known := getKnownSheetStatus st leadId
    if ¬ (isTrig ∨ isTerm ∨ known ≠ "") then (st, ws, .ok .statusMismatch)
    else
      match env.fetchLead leadId with
      | some fl => applyClassified cfg env st ws fl fl.statusId leadId known now
      | none => applyClassified cfg env st ws w whStatusId leadId known now

/-- One iteration of the `process_webhook_leads` loop (id check, dedup check,
then `processAfterDedup`); `now` is the `time.time()` of this iteration. -/
def processOneLead (cfg : Cfg) (env : Env) (st : SyncState) (dd : DedupState)
    (ws : WsState) (w : Lead) (now : Int) :
    SyncState × DedupState × WsState × Except String Outcome :=
  let leadId := pyStrip w.id
  if leadId = "" then (st, dd, ws, .ok .noId)
  else
    match isDuplicateWebhook dd leadId w.statusId now cfg.dedupTtl with
    | (true, dd') => (st, dd', ws, .ok .duplicate)
    | (false, dd') =>
        match processAfterDedup cfg env st ws w leadId w.statusId now with
        | (st', ws', .ok o) => (st', dd', ws', .ok o)
        | (st', ws', .error e) => (st', dd', ws', .error e)

/-- `process_webhook_leads` over a batch, each lead paired with its processing
time; a raised sheet exception aborts the batch (as in Python). -/
def processWebhookLeads (cfg : Cfg) (env : Env) (st : SyncState) (dd : DedupState)
    (ws : WsState) : List (Lead × Int) →
    SyncState × DedupState × WsState × Except String (List Outcome)
  | [] => (st, dd, ws, .ok [])
  | (w, t) :: rest =>
      match processOneLead cfg env st dd ws w t with
      | (st', dd', ws', .ok o) =>
          match processWebhookLeads cfg env st' dd' ws' rest with
          | (st'', dd'', ws'', .ok os) => (st'', dd'', ws'', .ok (o :: os))
          | (st'', dd'', ws'', .error e) => (st'', dd'', ws'', .error e)
      | (st', dd', ws', .error e) => (st', dd', ws', .error e)

/-! ## Event-log first-entry detection (`AmoClient.fetch_order_event_lead_ids`) -/

structure AmoEvent where
  entityId : Int
  oldSid : Int
  newSid : Int
  createdAt : Int
deriving DecidableEq, Repr

/-- One iteration of the `first_entry` scan: only transitions from a non-order
status into an order status count, keeping the earliest timestamp per lead. -/
def firstEntryStep (orderIds : List Int) (acc : List (Int × Int)) (ev : AmoEvent) :
    List (Int × Int) :=
  if ev.newSid ∈ orderIds ∧ ev.oldSid ∉ orderIds then
    match alookup acc ev.entityId with
    | none => aset acc ev.entityId ev.createdAt
    | some t => if ev.createdAt < t then aset acc ev.entityId ev.createdAt else acc
  else acc

def firstEntryMap (events : List AmoEvent) (orderIds : List Int) : List (Int × Int) :=
  events.foldl (firstEntryStep orderIds) []

/-- `fetch_order_event_lead_ids` applied to an already-fetched event log:
the set of leads that first entered an order stage, optionally intersected
with the set of leads created in the window. -/
def fetchOrderEventLeadIds (events : List AmoEvent) (orderIds : List Int)
    (createdLeadIds : Option (List Int)) : List Int :=
  let ks := (firstEntryMap events orderIds).map (fun p => p.1)
  match createdLeadIds with
  | some c => ks.filter (fun k => decide (k ∈ c))
  | none => ks

/-! ## Throttled API retry (`AmoClient._api_request`) -/

def backoffWait (attempt : Nat) : Nat := min (attempt * 10) 60

/-- The retry loop over the remaining attempt numbers; `last` is the response
of the previous (429) attempt, returned when attempts run out. -/
def apiRequestAux (resp : Nat → Nat) (sleeps : List Nat) (made last : Nat) :
    List Nat → Nat × List Nat × Nat
  | [] => (last, sleeps, made)
  | a :: rest =>
      let s := resp a
      if s = 429 then apiRequestAux resp (sleeps ++ [backoffWait a]) (made + 1) s rest
      else (s, sleeps ++ [], made + 1)

/-- `_api_request` for a fixed method/url: `resp a` is the HTTP status of the
`a`-th request.  Returns (final status, back-off sleeps performed, number of
requests issued). -/
def apiRequestModel (resp : Nat → Nat) : Nat × List Nat × Nat :=
  apiRequestAux resp [] 0 0 [1, 2, 3, 4, 5]

/-! ## Pull direction (`SyncService.sync_sheet_to_amo`) -/

def truthyOpt : Option Int → Bool
  | some n => n ≠ 0
  | none => false

def alookup2 (m : List (Int × List (String × Int))) (pid : Int) (k : String) : Option Int :=
  match alookup m pid with
  | some mm => alookup mm k
  | none => none

/-- The two-tier dispatched-status lookup of the order-number trigger:
pipeline display map for "У курера", falling back to the raw-name map for
"Заказ отправлен". -/
def resolveDispatchSid (cfg : Cfg) (pid : Int) : Option Int :=
  let s0 := alookup2 cfg.displayToId pid ORDER_NUM_FILLED_AMO_STATUS_DISPLAY
  if truthyOpt s0 then s0 else alookup2 cfg.nameToId pid "Заказ отправлен"

/-- Order-number trigger block of `sync_sheet_to_amo` for one row: a tracked,
previously-empty marker that is now filled moves the lead to Заказ отправлен
with the marker written to field 987889.  The marker is recorded inside the
`try`, after the PATCH; a raised GET/PATCH error therefore skips it. -/
def syncOneRowOrder (cfg : Cfg) (env : Env) (st : SyncState) (item : RowItem) :
    SyncState × List PatchBody :=
  let id := item.leadId
  let knownOrder := getKnownOrderNumber st id
  let tracked := (alookup st.sheetOrderNumberByLead id).isSome
  if tracked ∧ knownOrder = "" ∧ item.orderNumber ≠ "" then
    match env.amoGet id with
    | .error _ => (st, [])
    | .ok lead =>
        let pid := lead.pipelineId
        let sid := resolveDispatchSid cfg pid
        if truthyOpt sid then
          let body : PatchBody :=
            { statusId := sid.getD 0,
              pipelineId := if pid ≠ 0 then pid else cfg.pipelineIdCfg,
              orderField := some item.orderNumber }
          match env.amoPatch id body with
          | .ok _ => (rememberSheetOrderNumber st id item.orderNumber, [body])
          | .error _ => (st, [body])
        else (rememberSheetOrderNumber st id item.orderNumber, [])
  else (st, [])

/-- Status trigger block of `sync_sheet_to_amo` for one row: a sheet status
differing from the known status is pushed to the CRM through the three-tier
status-id resolution (pipeline display map, pipeline raw-name map, static
configuration map). -/
def syncOneRowStatus (cfg : Cfg) (env : Env) (st : SyncState) (item : RowItem) :
    SyncState × List PatchBody :=
  if (alookup cfg.statusMap item.status).isNone then (st, [])
  else if getKnownSheetStatus st item.leadId = item.status then (st, [])
  else
    match env.amoGet item.leadId with
    | .error _ => (st, [])
    | .ok lead =>
        let pid := lead.pipelineId
        let amoLookup := (alookup SHEET_STATUS_TO_AMO_DISPLAY item.status).getD item.status
        let s1 := alookup2 cfg.displayToId pid amoLookup
        let s2 := if truthyOpt s1 then s1 else alookup2 cfg.nameToId pid amoLookup
        let s3 := if truthyOpt s2 then s2 else alookup cfg.statusMap amoLookup
        if ¬ truthyOpt s3 then (st, [])
        else
          let body : PatchBody :=
            { statusId := s3.getD 0,
              pipelineId := if pid ≠ 0 then pid else cfg.pipelineIdCfg,
              orderField := none }
          match env.amoPatch item.leadId body with
          | .ok _ => (rememberSheetStatus st item.leadId item.status, [body])
          | .error _ => (st, [])

def syncOneRow (cfg : Cfg) (env : Env) (st : SyncState) (item : RowItem) :
    SyncState × List PatchBody :=
  let r1 := syncOneRowOrder cfg env st item
  let r2 := syncOneRowStatus cfg env r1.1 item
  (r2.1, r1.2 ++ r2.2)

/-- `sync_sheet_to_amo`: iterate the sheet rows, applying both triggers to
each; per-row CRM failures are caught and never abort the loop. -/
def syncSheetToAmo (cfg : Cfg) (env : Env) (st : SyncState) (ws : WsState) :
    SyncState × List PatchBody :=
  (iterLeadStatuses ws).foldl
    (fun acc item =>
      let r := syncOneRow cfg env acc.1 item
      (r.1, acc.2 ++ r.2))
    (st, [])

/-! ## Proof-side auxiliary definitions -/

/-- A sequence of `upsert_row` calls on one worksheet (a raised backend error
propagates, as it would out of the calling loop). -/
def upsertFold (ws : WsState) : List (List String) → WsState × Except String Unit
  | [] => (ws, .ok ())
  | r :: rest =>
      match upsertRow ws r "" with
      | (ws', .ok _) => upsertFold ws' rest
      | (ws', .error e) => (ws', .error e)

/-- Number of data rows (the header excluded) whose trimmed ID cell equals `id`. -/
def countIdRows (g : List (List String)) (id : String) : Nat :=
  ((g.drop 1).filter (fun r => decide (pyStrip ((r.get? ID_COL_INDEX).getD "") = id))).length

/-- Last element of a list, with a default. -/
def lastD {α : Type} : List α → α → α
  | [], d => d
  | x :: xs, _ => lastD xs x

/-- Minimum of an integer list, `none` when empty. -/
def listMinI : List Int → Option Int
  | [] => none
  | x :: xs =>
      match listMinI xs with
      | none => some x
      | some m => some (min x m)

/-- Timestamps of the qualifying (non-order → order) transitions of one lead. -/
def qualifyingTs (events : List AmoEvent) (orderIds : List Int) (lead : Int) : List Int :=
  (events.filter (fun e =>
    decide (e.entityId = lead ∧ e.newSid ∈ orderIds ∧ e.oldSid ∉ orderIds))).map
    (fun e => e.createdAt)

/-- Option-valued minimum combination. -/
def optMin : Option Int → Option Int → Option Int
  | none, b => b
  | some a, none => some a
  | some a, some b => some (min a b)

/-- The sheet display value a non-trigger webhook status resolves to before
the precedence guard: terminal-vocabulary name when the status id is in the
terminal map, otherwise its display name, both passed through
`AMO_STATUS_TO_SHEET_OVERRIDE`. -/
def sheetDisplayOf (cfg : Cfg) (statusId : Int) : String :=
  match alookup cfg.terminalStatusIdToName (toString statusId) with
  | some terminalName => (alookup AMO_STATUS_TO_SHEET_OVERRIDE terminalName).getD terminalName
  | none =>
      let nd := (alookup cfg.statusIdToDisplayName statusId).getD (toString statusId)
      (alookup AMO_STATUS_TO_SHEET_OVERRIDE nd).getD nd

/-! ## Association-list lemmas -/

theorem alookup_aset_self {κ α : Type} [DecidableEq κ] (m : List (κ × α)) (k : κ) (v : α) :
    alookup (aset m k v) k = some v := by
  induction m with
  | nil => simp [aset, alookup]
  | cons p rest ih =>
      obtain ⟨k', v'⟩ := p
      by_cases h : k' = k
      · simp [aset, h, alookup]
      · simp [aset, h, alookup, ih]

theorem alookup_aset_ne {κ α : Type} [DecidableEq κ] (m : List (κ × α)) (k k' : κ) (v : α)
    (h : k' ≠ k) : alookup (aset m k v) k' = alookup m k' := by
  induction m with
  | nil => simp [aset, alookup, Ne.symm h]
  | cons p rest ih =>
      obtain ⟨k0, v0⟩ := p
      by_cases h0 : k0 = k
      · subst h0
        simp [aset, alookup, Ne.symm h]
      · by_cases h1 : k0 = k'
        · simp [aset, alookup, h0, h1, h]
        · simp [aset, alookup, h0, h1, ih]

theorem alookup_filter_none {κ α : Type} [DecidableEq κ] (m : List (κ × α)) (k : κ)
    (p : κ × α → Bool) (h : alookup m k = none) : alookup (m.filter p) k = none := by
  induction m with
  | nil => simp [alookup]
  | cons q rest ih =>
      obtain ⟨k0, v0⟩ := q
      by_cases h0 : k0 = k
      · simp [alookup, h0] at h
      · simp only [alookup, if_neg h0] at h
        by_cases hp : p (k0, v0)
        · simp [List.filter, hp, alookup, h0, ih h]
        · simp [List.filter, hp, ih h]

theorem alookup_filter_some {κ α : Type} [DecidableEq κ] (m : List (κ × α)) (k : κ) (v : α)
    (p : κ × α → Bool) (h : alookup m k = some v) (hp : p (k, v) = true) :
    alookup (m.filter p) k = some v := by
  induction m with
  | nil => simp [alookup] at h
  | cons q rest ih =>
      obtain ⟨k0, v0⟩ := q
      by_cases h0 : k0 = k
      · subst h0
        simp only [alookup, if_pos rfl] at h
        cases h
        simp [List.filter, hp, alookup]
      · simp only [alookup, if_neg h0] at h
        by_cases hq : p (k0, v0)
        · simp [List.filter, hq, alookup, h0, ih h]
        · simp [List.filter, hq, ih h]

theorem alookup_append_left_none {κ α : Type} [DecidableEq κ] (m1 m2 : List (κ × α)) (k : κ)
    (h : alookup m1 k = none) : alookup (m1 ++ m2) k = alookup m2 k := by
  induction m1 with
  | nil => simp [alookup]
  | cons q rest ih =>
      obtain ⟨k0, v0⟩ := q
      by_cases h0 : k0 = k
      · simp [alookup, h0] at h
      · simp only [alookup, if_neg h0] at h
        simp [alookup, h0, ih h]

theorem aset_of_lookup_none {κ α : Type} [DecidableEq κ] (m : List (κ × α)) (k : κ) (v : α)
    (h : alookup m k = none) : aset m k v = m ++ [(k, v)] := by
  induction m with
  | nil => simp [aset]
  | cons q rest ih =>
      obtain ⟨k0, v0⟩ := q
      by_cases h0 : k0 = k
      · simp [alookup, h0] at h
      · simp only [alookup, if_neg h0] at h
        simp [aset, h0, ih h]

theorem alookup_none_of_keys {κ α : Type} [DecidableEq κ] (m : List (κ × α)) (k : κ) :
    alookup m k = none ↔ k ∉ m.map Prod.fst := by
  induction m with
  | nil => simp [alookup]
  | cons q rest ih =>
      obtain ⟨k0, v0⟩ := q
      by_cases h0 : k0 = k
      · simp [alookup, h0]
      · simp [alookup, h0, ih, Ne.symm h0]

theorem keys_aset {κ α : Type} [DecidableEq κ] (m : List (κ × α)) (k : κ) (v : α) :
    (aset m k v).map Prod.fst =
      if k ∈ m.map Prod.fst then m.map Prod.fst else m.map Prod.fst ++ [k] := by
  induction m with
  | nil => simp [aset]
  | cons q rest ih =>
      obtain ⟨k0, v0⟩ := q
      by_cases h0 : k0 = k
      · subst h0
        simp [aset]
      · by_cases h1 : k ∈ rest.map Prod.fst
        · simp [aset, h0, ih, h1, Ne.symm h0]
        · simp [aset, h0, ih, h1, Ne.symm h0]

theorem keys_aset_nodup {κ α : Type} [DecidableEq κ] (m : List (κ × α)) (k : κ) (v : α)
    (h : (m.map Prod.fst).Nodup) : ((aset m k v).map Prod.fst).Nodup := by
  rw [keys_aset]
  by_cases h1 : k ∈ m.map Prod.fst
  · simpa [h1] using h
  · simp only [h1, if_false]
    rw [List.nodup_append]
    refine ⟨h, List.nodup_singleton k, ?_⟩
    intro a ha hmem
    simp only [List.mem_singleton] at hmem
    subst hmem
    exact h1 ha

/-! ## Dedup-window lemmas -/

theorem isDup_fresh (dd : DedupState) (id : String) (sid : Int) (now ttl : Int)
    (h : alookup dd (dedupKey id sid) = none) :
    isDuplicateWebhook dd id sid now ttl =
      (false, dd.filter (dedupKeep now ttl) ++ [(dedupKey id sid, now)]) := by
  have h1 : alookup (dd.filter (dedupKeep now ttl)) (dedupKey id sid) = none :=
    alookup_filter_none dd (dedupKey id sid) _ h
  simp only [isDuplicateWebhook]
  rw [h1, aset_of_lookup_none _ _ _ h1]

theorem isDup_hit (dd : DedupState) (id : String) (sid : Int) (t0 t1 ttl : Int)
    (h : alookup dd (dedupKey id sid) = some t0)
    (httl : 0 ≤ ttl) (hwin : t1 - t0 < ttl) :
    (isDuplicateWebhook dd id sid t1 ttl).1 = true ∧
    alookup (isDuplicateWebhook dd id sid t1 ttl).2 (dedupKey id sid) = some t0 := by
  have hkeep : dedupKeep t1 ttl (dedupKey id sid, t0) = true := by
    simp only [dedupKeep, decide_eq_true_eq]
    omega
  have h2 := alookup_filter_some dd (dedupKey id sid) t0 _ h hkeep
  simp only [isDuplicateWebhook]
  rw [h2]
  exact ⟨by simp [hwin], by simp [hwin, h2]⟩

theorem processOneLead_dd (cfg : Cfg) (env : Env) (st : SyncState) (dd : DedupState)
    (ws : WsState) (w : Lead) (t : Int) (h : pyStrip w.id ≠ "") :
    (processOneLead cfg env st dd ws w t).2.1 =
      (isDuplicateWebhook dd (pyStrip w.id) w.statusId t cfg.dedupTtl).2 := by
  rcases hd : isDuplicateWebhook dd (pyStrip w.id) w.statusId t cfg.dedupTtl with ⟨b, dd2⟩
  cases b
  · rcases hp : processAfterDedup cfg env st ws w (pyStrip w.id) w.statusId t with ⟨st2, ws2, r⟩
    cases r <;> simp [processOneLead, h, hd, hp]
  · simp [processOneLead, h, hd]

theorem processOneLead_dup (cfg : Cfg) (env : Env) (st : SyncState) (dd : DedupState)
    (ws : WsState) (w : Lead) (t : Int) (h : pyStrip w.id ≠ "")
    (hd : (isDuplicateWebhook dd (pyStrip w.id) w.statusId t cfg.dedupTtl).1 = true) :
    processOneLead cfg env st dd ws w t =
      (st, (isDuplicateWebhook dd (pyStrip w.id) w.statusId t cfg.dedupTtl).2, ws,
       .ok .duplicate) := by
  rcases hdd : isDuplicateWebhook dd (pyStrip w.id) w.statusId t cfg.dedupTtl with ⟨b, dd2⟩
  rw [hdd] at hd
  cases b
  · simp at hd
  · simp [processOneLead, h, hdd]

/-- Claim C1: replaying an identical webhook notification `(L, S)` within
`WEBHOOK_DEDUP_TTL_SEC` of the first produces exactly one table mutation: the
first `_is_duplicate_webhook(L, S)` call returns false and records the
timestamp, every further call with the same pair within the TTL returns true,
and `process_webhook_leads` skips the replay before any sheet write — the
two-element batch ends in exactly the sheet and tracking state the first
notification alone produced. -/
theorem c1_webhook_replay_dedup
    (cfg : Cfg) (env : Env) (st : SyncState) (dd : DedupState) (ws : WsState)
    (w : Lead) (t0 t1 : Int) (st1 : SyncState) (dd1 : DedupState) (ws1 : WsState) (o1 : Outcome)
    (hid : pyStrip w.id ≠ "")
    (hfresh : alookup dd (dedupKey (pyStrip w.id) w.statusId) = none)
    (httl : 0 ≤ cfg.dedupTtl)
    (hwin : t1 - t0 < cfg.dedupTtl)
    (hr1 : processOneLead cfg env st dd ws w t0 = (st1, dd1, ws1, .ok o1)) :
    (isDuplicateWebhook dd (pyStrip w.id) w.statusId t0 cfg.dedupTtl).1 = false ∧
    alookup dd1 (dedupKey (pyStrip w.id) w.statusId) = some t0 ∧
    (isDuplicateWebhook dd1 (pyStrip w.id) w.statusId t1 cfg.dedupTtl).1 = true ∧
    processWebhookLeads cfg env st dd ws [(w, t0), (w, t1)] =
      (st1, (isDuplicateWebhook dd1 (pyStrip w.id) w.statusId t1 cfg.dedupTtl).2, ws1,
       .ok [o1, .duplicate]) := by
  have hfr := isDup_fresh dd (pyStrip w.id) w.statusId t0 cfg.dedupTtl hfresh
  have hdd1 : dd1 = (isDuplicateWebhook dd (pyStrip w.id) w.statusId t0 cfg.dedupTtl).2 := by
    have hh := processOneLead_dd cfg env st dd ws w t0 hid
    rw [hr1] at hh
    exact hh
  have hlook : alookup dd1 (dedupKey (pyStrip w.id) w.statusId) = some t0 := by
    rw [hdd1, hfr]
    have h1 : alookup (dd.filter (dedupKeep t0 cfg.dedupTtl))
        (dedupKey (pyStrip w.id) w.statusId) = none :=
      alookup_filter_none dd _ _ hfresh
    rw [alookup_append_left_none _ _ _ h1]
    simp [alookup]
  have hhit := isDup_hit dd1 (pyStrip w.id) w.statusId t0 t1 cfg.dedupTtl hlook httl hwin
  refine ⟨by rw [hfr], hlook, hhit.1, ?_⟩
  have hdup2 := processOneLead_dup cfg env st1 dd1 ws1 w t1 hid hhit.1
  simp [processWebhookLeads, hr1, hdup2]

/-! ## Concrete instances for witnesses -/

def emptySyncState : SyncState := ⟨[], [], []⟩

def c1Cfg : Cfg :=
  { triggerStatusIds := [], terminalStatusIdToName := [], pipelineIdToName := [],
    statusIdToDisplayName := [], pipelineDisplayMap := [], leadsCreatedAfter := 0,
    pipelineKeyword := "", dedupTtl := 60, triggerStatusName := "NOMERATSIYALANMAGAN ZAKAZ",
    pipelineIdCfg := 0, statusMap := [], displayToId := [], nameToId := [] }

def c1Env : Env :=
  { fetchLead := fun _ => none, amoGet := fun _ => .error "down",
    amoPatch := fun _ _ => .ok (), staff := [], usersMap := [], fmtDate := fun s => s }

def c1Lead : Lead :=
  { id := "5", price := "", name := "", statusId := 3, pipelineId := 0, updatedAt := 0,
    respUserId := 0, contacts := [], companies := [], customFields := [] }

def c1Ws : WsState := ⟨[], none, 0, 0, false⟩

/-- Witness for claim C1 at a concrete replayed notification. -/
theorem c1_webhook_replay_dedup_witness :
    (isDuplicateWebhook ([] : DedupState) "5" 3 100 60).1 = false ∧
    alookup ([("5:3", 100)] : DedupState) (dedupKey "5" 3) = some 100 ∧
    (isDuplicateWebhook ([("5:3", 100)] : DedupState) "5" 3 120 60).1 = true ∧
    processWebhookLeads c1Cfg c1Env emptySyncState [] c1Ws [(c1Lead, 100), (c1Lead, 120)] =
      (emptySyncState, (isDuplicateWebhook ([("5:3", 100)] : DedupState) "5" 3 120 60).2, c1Ws,
       .ok [.statusMismatch, .duplicate]) :=
  c1_webhook_replay_dedup c1Cfg c1Env emptySyncState [] c1Ws c1Lead 100 120
    emptySyncState [("5:3", 100)] c1Ws .statusMismatch
    (by decide) rfl (by decide) (by decide) rfl

/-! ## First-entry detection lemmas -/

theorem optMin_assoc (a b c : Option Int) :
    optMin (optMin a b) c = optMin a (optMin b c) := by
  cases a <;> cases b <;> cases c <;> simp [optMin, min_assoc]

theorem listMinI_cons (x : Int) (xs : List Int) :
    listMinI (x :: xs) = optMin (some x) (listMinI xs) := by
  cases h : listMinI xs <;> simp [listMinI, h, optMin]

theorem listMinI_eq_none (l : List Int) : listMinI l = none ↔ l = [] := by
  cases l with
  | nil => simp [listMinI]
  | cons x xs => cases h : listMinI xs <;> simp [listMinI, h]

theorem qualifyingTs_cons (e : AmoEvent) (es : List AmoEvent) (ids : List Int) (lead : Int) :
    qualifyingTs (e :: es) ids lead =
      if e.entityId = lead ∧ e.newSid ∈ ids ∧ e.oldSid ∉ ids
      then e.createdAt :: qualifyingTs es ids lead
      else qualifyingTs es ids lead := by
  by_cases h : e.entityId = lead ∧ e.newSid ∈ ids ∧ e.oldSid ∉ ids <;>
    simp [qualifyingTs, List.filter, h]

theorem firstEntryStep_lookup (ids : List Int) (acc : List (Int × Int)) (e : AmoEvent)
    (lead : Int) :
    alookup (firstEntryStep ids acc e) lead =
      if e.entityId = lead ∧ e.newSid ∈ ids ∧ e.oldSid ∉ ids
      then optMin (alookup acc lead) (some e.createdAt)
      else alookup acc lead := by
  by_cases hq : e.newSid ∈ ids ∧ e.oldSid ∉ ids
  · by_cases hl : e.entityId = lead
    · subst hl
      cases halo : alookup acc e.entityId with
      | none =>
          simp [firstEntryStep, hq, halo, optMin, alookup_aset_self]
      | some t =>
          by_cases hlt : e.createdAt < t
          · have : min t e.createdAt = e.createdAt := min_eq_right (le_of_lt hlt)
            simp [firstEntryStep, hq, halo, hlt, optMin, alookup_aset_self, this]
          · have : min t e.createdAt = t := min_eq_left (le_of_not_lt hlt)
            simp [firstEntryStep, hq, halo, hlt, optMin, this]
    · have hne : lead ≠ e.entityId := fun h => hl h.symm
      cases halo : alookup acc e.entityId with
      | none =>
          simp [firstEntryStep, hq, halo, hl, alookup_aset_ne _ _ _ _ hne]
      | some t =>
          by_cases hlt : e.createdAt < t
          · simp [firstEntryStep, hq, halo, hlt, hl, alookup_aset_ne _ _ _ _ hne]
          · simp [firstEntryStep, hq, halo, hlt, hl]
  · have hc : ¬ (e.entityId = lead ∧ e.newSid ∈ ids ∧ e.oldSid ∉ ids) := fun h => hq h.2
    simp [firstEntryStep, hq, hc]

theorem firstEntry_foldl (ids : List Int) (lead : Int) :
    ∀ (events : List AmoEvent) (acc : List (Int × Int)),
      alookup (events.foldl (firstEntryStep ids) acc) lead =
        optMin (alookup acc lead) (listMinI (qualifyingTs events ids lead)) := by
  intro events
  induction events with
  | nil =>
      intro acc
      cases h : alookup acc lead <;> simp [qualifyingTs, listMinI, optMin, h]
  | cons e es ih =>
      intro acc
      rw [List.foldl_cons, ih, firstEntryStep_lookup, qualifyingTs_cons]
      by_cases hc : e.entityId = lead ∧ e.newSid ∈ ids ∧ e.oldSid ∉ ids
      · rw [if_pos hc, if_pos hc, listMinI_cons, ← optMin_assoc]
      · rw [if_neg hc, if_neg hc]

theorem firstEntry_keys_nodup (ids : List Int) :
    ∀ (events : List AmoEvent) (acc : List (Int × Int)),
      ((acc.map Prod.fst).Nodup) → (((events.foldl (firstEntryStep ids) acc).map Prod.fst).Nodup) := by
  intro events
  induction events with
  | nil => intro acc h; simpa using h
  | cons e es ih =>
      intro acc h
      rw [List.foldl_cons]
      apply ih
      by_cases hq : e.newSid ∈ ids ∧ e.oldSid ∉ ids
      · cases halo : alookup acc e.entityId with
        | none => simpa [firstEntryStep, hq, halo] using keys_aset_nodup _ _ _ h
        | some t =>
            by_cases hlt : e.createdAt < t
            · simpa [firstEntryStep, hq, halo, hlt] using keys_aset_nodup _ _ _ h
            · simpa [firstEntryStep, hq, halo, hlt] using h
      · simpa [firstEntryStep, hq] using h

/-- Claim C4: `fetch_order_event_lead_ids` reports each lead at most once
(the per-lead map has no duplicate keys), records exactly the minimum
timestamp over the qualifying transitions — those whose old status lies
outside `order_status_ids` and whose new status lies inside it, so
target→target hops never contribute — and a lead is reported iff it has at
least one qualifying transition; in particular a target→other→target log for
one lead yields exactly one detection at the earliest qualifying entry. -/
theorem c4_first_entry_detection (events : List AmoEvent) (orderIds : List Int) (lead : Int) :
    ((firstEntryMap events orderIds).map Prod.fst).Nodup ∧
    alookup (firstEntryMap events orderIds) lead =
      listMinI (qualifyingTs events orderIds lead) ∧
    ((lead ∈ fetchOrderEventLeadIds events orderIds none) ↔
      qualifyingTs events orderIds lead ≠ []) := by
  refine ⟨firstEntry_keys_nodup orderIds events [] (by simp), ?_, ?_⟩
  · rw [firstEntryMap, firstEntry_foldl]
    simp [alookup, optMin]
  · have h1 : alookup (firstEntryMap events orderIds) lead =
        listMinI (qualifyingTs events orderIds lead) := by
      rw [firstEntryMap, firstEntry_foldl]
      simp [alookup, optMin]
    constructor
    · intro hmem
      intro hnil
      have h2 : listMinI (qualifyingTs events orderIds lead) = none :=
        (listMinI_eq_none _).mpr hnil
      have h3 : alookup (firstEntryMap events orderIds) lead = none := by rw [h1, h2]
      exact ((alookup_none_of_keys _ _).mp h3) hmem
    · intro hne
      by_contra hmem
      have h3 : alookup (firstEntryMap events orderIds) lead = none :=
        (alookup_none_of_keys _ _).mpr (by simpa [fetchOrderEventLeadIds] using hmem)
      rw [h1] at h3
      exact hne ((listMinI_eq_none _).mp h3)

/-- Witness for claim C4 on the spec's target→other→target scenario: lead 9
hops other(1)→target(7) at t=50, target(7)→other(2) at t=60, and
other(2)→target(8) at t=70; it is detected once, at t=50. -/
theorem c4_first_entry_detection_witness :
    ((firstEntryMap [⟨9, 1, 7, 50⟩, ⟨9, 7, 2, 60⟩, ⟨9, 2, 8, 70⟩] [7, 8]).map Prod.fst).Nodup ∧
    alookup (firstEntryMap [⟨9, 1, 7, 50⟩, ⟨9, 7, 2, 60⟩, ⟨9, 2, 8, 70⟩] [7, 8]) 9 =
      listMinI (qualifyingTs [⟨9, 1, 7, 50⟩, ⟨9, 7, 2, 60⟩, ⟨9, 2, 8, 70⟩] [7, 8] 9) ∧
    ((9 ∈ fetchOrderEventLeadIds [⟨9, 1, 7, 50⟩, ⟨9, 7, 2, 60⟩, ⟨9, 2, 8, 70⟩] [7, 8] none) ↔
      qualifyingTs [⟨9, 1, 7, 50⟩, ⟨9, 7, 2, 60⟩, ⟨9, 2, 8, 70⟩] [7, 8] 9 ≠ []) :=
  c4_first_entry_detection [⟨9, 1, 7, 50⟩, ⟨9, 7, 2, 60⟩, ⟨9, 2, 8, 70⟩] [7, 8] 9

/-! ## API retry lemmas -/

/-- Claim C9: for every API call, each 429 response triggers a retry after a
`min(attempt*10, 60)`-second sleep, at most 5 requests are issued in total,
an early exit only happens on a non-429 response, and after exhausting the
retries the last (429) response is returned to the caller instead of raising:
the final status always equals the response of the last request issued. -/
theorem c9_api_request_backoff (resp : Nat → Nat) :
    1 ≤ (apiRequestModel resp).2.2 ∧ (apiRequestModel resp).2.2 ≤ 5 ∧
    (apiRequestModel resp).1 = resp (apiRequestModel resp).2.2 ∧
    (∀ k, 1 ≤ k → k < (apiRequestModel resp).2.2 → resp k = 429) ∧
    ((apiRequestModel resp).2.2 < 5 → (apiRequestModel resp).1 ≠ 429) ∧
    (apiRequestModel resp).2.1 =
      (List.range' 1 (if (apiRequestModel resp).1 = 429
                      then (apiRequestModel resp).2.2
                      else (apiRequestModel resp).2.2 - 1)).map backoffWait := by
  by_cases h1 : resp 1 = 429
  · by_cases h2 : resp 2 = 429
    · by_cases h3 : resp 3 = 429
      · by_cases h4 : resp 4 = 429
        · by_cases h5 : resp 5 = 429
          · have hr : apiRequestModel resp = (resp 5, [10, 20, 30, 40, 50], 5) := by
              simp [apiRequestModel, apiRequestAux, h1, h2, h3, h4, h5, backoffWait]
            rw [hr]
            refine ⟨by norm_num, by norm_num, rfl, ?_, ?_, ?_⟩
            · intro k hk1 hk2
              have hk5 : k < 5 := hk2
              have hk : k = 1 ∨ k = 2 ∨ k = 3 ∨ k = 4 := by omega
              rcases hk with rfl | rfl | rfl | rfl
              · exact h1
              · exact h2
              · exact h3
              · exact h4
            · intro h
              have h5lt : (5 : Nat) < 5 := h
              omega
            · simp only [h5, if_pos]
              decide
          · have hr : apiRequestModel resp = (resp 5, [10, 20, 30, 40], 5) := by
              simp [apiRequestModel, apiRequestAux, h1, h2, h3, h4, h5, backoffWait]
            rw [hr]
            refine ⟨by norm_num, by norm_num, rfl, ?_, ?_, ?_⟩
            · intro k hk1 hk2
              have hk5 : k < 5 := hk2
              have hk : k = 1 ∨ k = 2 ∨ k = 3 ∨ k = 4 := by omega
              rcases hk with rfl | rfl | rfl | rfl
              · exact h1
              · exact h2
              · exact h3
              · exact h4
            · intro h
              have h5lt : (5 : Nat) < 5 := h
              omega
            · simp only [h5, if_neg]
              decide
        · have hr : apiRequestModel resp = (resp 4, [10, 20, 30], 4) := by
            simp [apiRequestModel, apiRequestAux, h1, h2, h3, h4, backoffWait]
          rw [hr]
          refine ⟨by norm_num, by norm_num, rfl, ?_, fun _ => h4, ?_⟩
          · intro k hk1 hk2
            have hk4 : k < 4 := hk2
            have hk : k = 1 ∨ k = 2 ∨ k = 3 := by omega
            rcases hk with rfl | rfl | rfl
            · exact h1
            · exact h2
            · exact h3
          · simp only [h4, if_neg]
            decide
      · have hr : apiRequestModel resp = (resp 3, [10, 20], 3) := by
          simp [apiRequestModel, apiRequestAux, h1, h2, h3, backoffWait]
        rw [hr]
        refine ⟨by norm_num, by norm_num, rfl, ?_, fun _ => h3, ?_⟩
        · intro k hk1 hk2
          have hk3 : k < 3 := hk2
          have hk : k = 1 ∨ k = 2 := by omega
          rcases hk with rfl | rfl
          · exact h1
          · exact h2
        · simp only [h3, if_neg]
          decide
    · have hr : apiRequestModel resp = (resp 2, [10], 2) := by
        simp [apiRequestModel, apiRequestAux, h1, h2, backoffWait]
      rw [hr]
      refine ⟨by norm_num, by norm_num, rfl, ?_, fun _ => h2, ?_⟩
      · intro k hk1 hk2
        have hk2n : k < 2 := hk2
        have hk : k = 1 := by omega
        rcases hk with rfl
        exact h1
      · simp only [h2, if_neg]
        decide
  · have hr : apiRequestModel resp = (resp 1, [], 1) := by
      simp [apiRequestModel, apiRequestAux, h1, backoffWait]
    rw [hr]
    refine ⟨by norm_num, by norm_num, rfl, ?_, fun _ => h1, ?_⟩
    · intro k hk1 hk2
      have hk1n : k < 1 := hk2
      omega
    · simp only [h1, if_neg]
      decide

/-- Witness for claim C9 at a concrete response sequence (429, 429, then 200). -/
theorem c9_api_request_backoff_witness :
    1 ≤ (apiRequestModel (fun a => if a ≤ 2 then 429 else 200)).2.2 ∧
    (apiRequestModel (fun a => if a ≤ 2 then 429 else 200)).2.2 ≤ 5 ∧
    (apiRequestModel (fun a => if a ≤ 2 then 429 else 200)).1 =
      (fun a => if a ≤ 2 then 429 else 200) (apiRequestModel (fun a => if a ≤ 2 then 429 else 200)).2.2 ∧
    (∀ k, 1 ≤ k → k < (apiRequestModel (fun a => if a ≤ 2 then 429 else 200)).2.2 →
      (fun a => if a ≤ 2 then 429 else 200) k = 429) ∧
    ((apiRequestModel (fun a => if a ≤ 2 then 429 else 200)).2.2 < 5 →
      (apiRequestModel (fun a => if a ≤ 2 then 429 else 200)).1 ≠ 429) ∧
    (apiRequestModel (fun a => if a ≤ 2 then 429 else 200)).2.1 =
      (List.range' 1 (if (apiRequestModel (fun a => if a ≤ 2 then 429 else 200)).1 = 429
                      then (apiRequestModel (fun a => if a ≤ 2 then 429 else 200)).2.2
                      else (apiRequestModel (fun a => if a ≤ 2 then 429 else 200)).2.2 - 1)).map
        backoffWait :=
  c9_api_request_backoff (fun a => if a ≤ 2 then 429 else 200)

/-! ## `build_row` column-priority lemmas -/

theorem agetD_aset_self (m : List (String × String)) (k v : String) :
    agetD (aset m k v) k = v := by
  simp [agetD, alookup_aset_self]

theorem agetD_aset_ne (m : List (String × String)) (k k' v : String) (h : k' ≠ k) :
    agetD (aset m k v) k' = agetD m k' := by
  simp [agetD, alookup_aset_ne _ _ _ _ h]

theorem get?_map_col20 (f : String → String) :
    (COLUMNS.map f).get? 20 = some (f "Статус") := by
  simp [COLUMNS]

theorem get?_map_col19 (f : String → String) :
    (COLUMNS.map f).get? 19 = some (f "Воронка") := by
  simp [COLUMNS]

/-- Claim C10: the row built by `build_row` always has its Статус column equal
to the display-mapped `status_name` argument and its Воронка column equal to
the display-mapped `pipeline_name` argument — for every lead, in particular
one whose `custom_fields_values` contains a field named "Статус" or
"Воронка": the re-application after the custom-fields loop makes such a CRM
custom field unable to overwrite the pipeline-derived values. -/
theorem c10_build_row_status_priority (pdm staff : List (String × String))
    (fmtDate : String → String) (lead : Lead) (statusName pipelineName respName : String) :
    (buildRow pdm staff fmtDate lead statusName pipelineName respName).length = COLUMNS.length ∧
    (buildRow pdm staff fmtDate lead statusName pipelineName respName).get? STATUS_COL_INDEX =
      some (statusDisplay statusName) ∧
    (buildRow pdm staff fmtDate lead statusName pipelineName respName).get?
        (COLUMNS.indexOf "Воронка") =
      some ((alookup pdm pipelineName).getD pipelineName) := by
  have hst : STATUS_COL_INDEX = 20 := by decide
  have hvr : COLUMNS.indexOf "Воронка" = 19 := by decide
  refine ⟨by simp [buildRow], ?_, ?_⟩
  · rw [hst]
    simp only [buildRow]
    rw [get?_map_col20, agetD_aset_ne _ _ _ _ (by decide), agetD_aset_self]
  · rw [hvr]
    simp only [buildRow]
    rw [get?_map_col19, agetD_aset_self]

/-! ## Quota-error safety of the table store (claim C7) -/

/-- Claim C7: when the tabular backend raises on a write, `upsert_row` and
`update_status` leave the in-memory row index and row count untouched (given
the index cache is built): the append path extends the index entry and row
count only after the backend write returns successfully, the overwrite path
and `update_status` never mutate them — in fact the whole cached state is
exactly as before the failing call. -/
theorem c7_quota_error_preserves_index (ws : WsState) (idx : List (String × Nat))
    (rowData : List String) (pd lid sname pd2 : String)
    (hfw : ws.failWrites = true) (hidx : ws.rowIndexOpt = some idx) :
    (upsertRow ws rowData pd).1 = ws ∧
    (upsertRow ws rowData pd).2 = .error "quota" ∧
    (updateStatusS ws lid sname pd2).1 = ws ∧
    (upsertRow ws rowData pd).1.rowIndexOpt = some idx ∧
    (upsertRow ws rowData pd).1.rowCount = ws.rowCount := by
  have hens : ensureIndex ws = ws := by
    simp [ensureIndex, hidx]
  have hup : (upsertRow ws rowData pd).1 = ws ∧ (upsertRow ws rowData pd).2 = .error "quota" := by
    unfold upsertRow
    rw [hens]
    dsimp only
    constructor
    · split <;> simp [hfw]
    · split <;> simp [hfw]
  have hupd : (updateStatusS ws lid sname pd2).1 = ws := by
    unfold updateStatusS
    rw [hens]
    dsimp only
    split <;> simp [hfw]
  exact ⟨hup.1, hup.2, hupd, by rw [hup.1, hidx], by rw [hup.1]⟩

/-- Witness for claim C7 at a concrete quota-failing worksheet. -/
theorem c7_quota_error_preserves_index_witness :
    (upsertRow ⟨[["x", "7"]], some [("7", 2)], 2, 1, true⟩ ["a", "7"] "").1 =
      ⟨[["x", "7"]], some [("7", 2)], 2, 1, true⟩ ∧
    (upsertRow ⟨[["x", "7"]], some [("7", 2)], 2, 1, true⟩ ["a", "7"] "").2 = .error "quota" ∧
    (updateStatusS ⟨[["x", "7"]], some [("7", 2)], 2, 1, true⟩ "7" "Успешно" "").1 =
      ⟨[["x", "7"]], some [("7", 2)], 2, 1, true⟩ ∧
    (upsertRow ⟨[["x", "7"]], some [("7", 2)], 2, 1, true⟩ ["a", "7"] "").1.rowIndexOpt =
      some [("7", 2)] ∧
    (upsertRow ⟨[["x", "7"]], some [("7", 2)], 2, 1, true⟩ ["a", "7"] "").1.rowCount =
      (⟨[["x", "7"]], some [("7", 2)], 2, 1, true⟩ : WsState).rowCount :=
  c7_quota_error_preserves_index ⟨[["x", "7"]], some [("7", 2)], 2, 1, true⟩ [("7", 2)]
    ["a", "7"] "" "7" "Успешно" "" rfl rfl

/-! ## Upsert / row-index lemmas (claim C3) -/

theorem set_append_length {α : Type} (g : List α) (e x : α) :
    (g ++ [e]).set g.length x = g ++ [x] := by
  induction g with
  | nil => simp
  | cons h t ih => simp [List.set, ih]

theorem get?_append_length {α : Type} (g : List α) (e : α) :
    (g ++ [e]).get? g.length = some e := by
  induction g with
  | nil => simp
  | cons h t ih => exact ih

theorem writeRowAt_append (g : List (List String)) (v : List String) :
    writeRowAt g (g.length + 1) v = g ++ [v] := by
  unfold writeRowAt
  have h1 : ¬ (g.length + 1 ≤ g.length) := by omega
  have h2 : g.length + 1 - g.length = 1 := by omega
  simp only [h1, if_false, h2, List.replicate, Nat.add_sub_cancel]
  rw [get?_append_length g ([] : List String)]
  simp [set_append_length]

theorem writeRowAt_last (g : List (List String)) (cur v : List String) :
    writeRowAt (g ++ [cur]) (g.length + 1) v = g ++ [v ++ cur.drop v.length] := by
  unfold writeRowAt
  have h1 : g.length + 1 ≤ (g ++ [cur]).length := by simp
  simp only [h1, if_true, Nat.add_sub_cancel]
  rw [get?_append_length g cur]
  simp only [Option.getD_some]
  have h2 : (g ++ [cur]).set g.length (v ++ cur.drop v.length) = g ++ [v ++ cur.drop v.length] :=
    set_append_length g cur (v ++ cur.drop v.length)
  exact h2

theorem buildIdxData_lookup_none (id : String) :
    ∀ (rows : List (List String)) (n : Nat) (acc : List (String × Nat)),
      (∀ r ∈ rows, pyStrip ((r.get? ID_COL_INDEX).getD "") ≠ id) →
      alookup (buildIdxData rows n acc) id = alookup acc id := by
  intro rows
  induction rows with
  | nil => intro n acc _; rfl
  | cons r rest ih =>
      intro n acc h
      have hr := h r (List.mem_cons_self r rest)
      unfold buildIdxData
      cases hc : r.get? ID_COL_INDEX with
      | none => exact ih (n + 1) acc (fun x hx => h x (List.mem_cons_of_mem _ hx))
      | some cell =>
          rw [hc] at hr
          simp only [Option.getD_some] at hr
          dsimp only
          by_cases hlid : pyStrip cell ≠ ""
          · rw [if_pos hlid, ih (n + 1) _ (fun x hx => h x (List.mem_cons_of_mem _ hx))]
            exact alookup_aset_ne acc (pyStrip cell) id n (Ne.symm hr)
          · rw [if_neg hlid]
            exact ih (n + 1) acc (fun x hx => h x (List.mem_cons_of_mem _ hx))

theorem buildIdx_lookup_none (g : List (List String)) (id : String)
    (habs : ∀ r ∈ g.drop 1, pyStrip ((r.get? ID_COL_INDEX).getD "") ≠ id) :
    alookup (buildIdx g) id = none := by
  cases g with
  | nil => rfl
  | cons h t =>
      unfold buildIdx
      rw [buildIdxData_lookup_none id t 2 [] habs]
      rfl

theorem lastD_mem {α : Type} : ∀ (l : List α) (d : α), lastD l d = d ∨ lastD l d ∈ l := by
  intro l
  induction l with
  | nil => intro d; exact Or.inl rfl
  | cons x xs ih =>
      intro d
      rcases ih x with h | h
      · exact Or.inr (by rw [lastD, h]; exact List.mem_cons_self x xs)
      · exact Or.inr (by rw [lastD]; exact List.mem_cons_of_mem x h)

theorem filter_all_false {α : Type} (p : α → Bool) :
    ∀ l : List α, (∀ a ∈ l, p a = false) → l.filter p = [] := by
  intro l
  induction l with
  | nil => intro _; rfl
  | cons x xs ih =>
      intro h
      have hx := h x (List.mem_cons_self x xs)
      simp [List.filter, hx, ih (fun a ha => h a (List.mem_cons_of_mem _ ha))]

theorem upsertFold_loop (id : String) (idx : List (String × Nat)) (R : Nat) :
    ∀ (rows : List (List String)) (g0 : List (List String)) (cur : List String),
      alookup idx id = some (g0.length + 1) →
      cur.length = COLUMNS.length →
      (∀ r ∈ rows, r.get? ID_COL_INDEX = some id ∧ r.length = COLUMNS.length) →
      upsertFold ⟨g0 ++ [cur], some idx, g0.length + 1, R, false⟩ rows =
        (⟨g0 ++ [lastD rows cur], some idx, g0.length + 1, R, false⟩, .ok ()) := by
  intro rows
  induction rows with
  | nil =>
      intro g0 cur _ _ _
      simp [upsertFold, lastD]
  | cons r rest ih =>
      intro g0 cur h1 h2 h3
      have hr := h3 r (List.mem_cons_self r rest)
      have hdrop : cur.drop r.length = [] := by
        rw [hr.2, ← h2]
        exact List.drop_length cur
      have hup : upsertRow ⟨g0 ++ [cur], some idx, g0.length + 1, R, false⟩ r "" =
          (⟨g0 ++ [r], some idx, g0.length + 1, R, false⟩, .ok (g0.length + 1)) := by
        unfold upsertRow ensureIndex
        dsimp only
        rw [hr.1]
        simp only [Option.getD_some, h1]
        rw [writeRowAt_last, hdrop]
        simp
      rw [upsertFold, hup]
      dsimp only
      rw [ih g0 r h1 hr.2 (fun x hx => h3 x (List.mem_cons_of_mem _ hx))]
      rfl

theorem countIdRows_append_single (g : List (List String)) (last : List String) (id : String)
    (hg : g ≠ [])
    (habs : ∀ r ∈ g.drop 1, pyStrip ((r.get? ID_COL_INDEX).getD "") ≠ id)
    (hlast : last.get? ID_COL_INDEX = some id) (hstrip : pyStrip id = id) :
    countIdRows (g ++ [last]) id = 1 := by
  cases g with
  | nil => exact absurd rfl hg
  | cons h t =>
      unfold countIdRows
      have hdrop : ((h :: t) ++ [last]).drop 1 = t ++ [last] := rfl
      rw [hdrop, List.filter_append]
      have ht : t.filter (fun r => decide (pyStrip ((r.get? ID_COL_INDEX).getD "") = id)) = [] := by
        refine filter_all_false _ t (fun r hr => ?_)
        exact decide_eq_false (habs r hr)
      rw [ht]
      have hpred : decide (pyStrip ((last.get? ID_COL_INDEX).getD "") = id) = true := by
        have hcell : (last.get? ID_COL_INDEX).getD "" = id := by rw [hlast]; rfl
        rw [hcell, hstrip]
        exact decide_eq_true rfl
      rw [List.nil_append, List.filter_cons, hpred]
      rfl

/-- Claim C3: a sequence of `upsert_row` calls with the same entity id on one
worksheet leaves exactly one row holding that id, whose content is the last
written row: the first call builds the index once (`reads` grows by exactly
one and never again), appends at `_row_count + 1` and extends the in-memory
index with the new row number, and every later call overwrites that same row
in place without re-reading the grid. -/
theorem c3_upsert_at_most_one_row (ws0 : WsState) (id : String) (rows : List (List String))
    (hfw : ws0.failWrites = false) (hidx : ws0.rowIndexOpt = none)
    (hstrip : pyStrip id = id)
    (hrows : ∀ r ∈ rows, r.get? ID_COL_INDEX = some id ∧ r.length = COLUMNS.length)
    (hne : rows ≠ [])
    (habs : ∀ r ∈ ws0.grid.drop 1, pyStrip ((r.get? ID_COL_INDEX).getD "") ≠ id)
    (hgrid : ws0.grid ≠ []) :
    (upsertFold ws0 rows).2 = .ok () ∧
    (upsertFold ws0 rows).1.grid = ws0.grid ++ [lastD rows []] ∧
    countIdRows (upsertFold ws0 rows).1.grid id = 1 ∧
    (upsertFold ws0 rows).1.reads = ws0.reads + 1 ∧
    (upsertFold ws0 rows).1.rowCount = ws0.grid.length + 1 ∧
    (upsertFold ws0 rows).1.rowIndexOpt =
      some (aset (buildIdx ws0.grid) id (ws0.grid.length + 1)) := by
  cases rows with
  | nil => exact absurd rfl hne
  | cons r0 rest =>
      have hr0 := hrows r0 (List.mem_cons_self r0 rest)
      have hens : ensureIndex ws0 = buildRowIndexS ws0 := by
        unfold ensureIndex
        rw [hidx]
      have hlook : alookup (buildIdx ws0.grid) id = none := buildIdx_lookup_none ws0.grid id habs
      have hup0 : upsertRow ws0 r0 "" =
          (⟨ws0.grid ++ [r0], some (aset (buildIdx ws0.grid) id (ws0.grid.length + 1)),
            ws0.grid.length + 1, ws0.reads + 1, false⟩, .ok (ws0.grid.length + 1)) := by
        unfold upsertRow
        rw [hens]
        dsimp only [buildRowIndexS]
        rw [hr0.1]
        simp only [Option.getD_some, hlook]
        rw [writeRowAt_append]
        simp [hfw]
      have hloop := upsertFold_loop id (aset (buildIdx ws0.grid) id (ws0.grid.length + 1))
        (ws0.reads + 1) rest ws0.grid r0 (alookup_aset_self _ _ _) hr0.2
        (fun x hx => hrows x (List.mem_cons_of_mem _ hx))
      have heq : upsertFold ws0 (r0 :: rest) =
          (⟨ws0.grid ++ [lastD rest r0], some (aset (buildIdx ws0.grid) id (ws0.grid.length + 1)),
            ws0.grid.length + 1, ws0.reads + 1, false⟩, .ok ()) := by
        rw [upsertFold, hup0]
        dsimp only
        exact hloop
      rw [heq]
      have hlastmem : (lastD rest r0).get? ID_COL_INDEX = some id := by
        rcases lastD_mem rest r0 with h | h
        · rw [h]; exact hr0.1
        · exact (hrows _ (List.mem_cons_of_mem _ h)).1
      exact ⟨rfl, rfl,
        countIdRows_append_single ws0.grid (lastD rest r0) id hgrid habs hlastmem hstrip,
        rfl, rfl, rfl⟩

def c3Row1 : List String :=
  ["", "1", "", "", "", "", "", "", "", "", "", "", "", "", "", "", "", "", "", "", "В процессе"]

def c3Row2 : List String :=
  ["", "1", "", "", "", "", "", "", "", "", "", "", "", "", "", "", "", "", "", "", "Успешно"]

def c3Ws : WsState := ⟨[COLUMNS], none, 0, 0, false⟩

/-- Witness for claim C3: two upserts of lead "1" on a fresh header-only
worksheet read the grid once, append one row, and overwrite it in place. -/
theorem c3_upsert_at_most_one_row_witness :
    (upsertFold c3Ws [c3Row1, c3Row2]).2 = .ok () ∧
    (upsertFold c3Ws [c3Row1, c3Row2]).1.grid = c3Ws.grid ++ [lastD [c3Row1, c3Row2] []] ∧
    countIdRows (upsertFold c3Ws [c3Row1, c3Row2]).1.grid "1" = 1 ∧
    (upsertFold c3Ws [c3Row1, c3Row2]).1.reads = c3Ws.reads + 1 ∧
    (upsertFold c3Ws [c3Row1, c3Row2]).1.rowCount = c3Ws.grid.length + 1 ∧
    (upsertFold c3Ws [c3Row1, c3Row2]).1.rowIndexOpt =
      some (aset (buildIdx c3Ws.grid) "1" (c3Ws.grid.length + 1)) :=
  c3_upsert_at_most_one_row c3Ws "1" [c3Row1, c3Row2] rfl rfl (by decide) (by decide)
    (by decide) (by decide) (by decide)

/-! ## Precedence guard (claim C5) -/

theorem applyClassified_guard (cfg : Cfg) (env : Env) (st : SyncState) (ws : WsState)
    (full : Lead) (statusId : Int) (leadId : String) (now : Int)
    (hnotrig : statusId ∉ cfg.triggerStatusIds)
    (hdisp : sheetDisplayOf cfg statusId = "У курера") :
    (applyClassified cfg env st ws full statusId leadId "В процессе" now).1 = st ∧
    (applyClassified cfg env st ws full statusId leadId "В процессе" now).2.1 = ws := by
  unfold applyClassified
  by_cases h1 : cfg.leadsCreatedAfter ≠ 0 ∧ full.updatedAt ≠ 0 ∧
      full.updatedAt < cfg.leadsCreatedAfter
  · simp [h1]
  · by_cases h2 : cfg.pipelineKeyword ≠ "" ∧
        ¬ strContains (pyLower ((alookup cfg.pipelineIdToName full.pipelineId).getD ""))
          cfg.pipelineKeyword
    · simp [h1, h2]
    · cases hterm : alookup cfg.terminalStatusIdToName (toString statusId) with
      | some tname =>
          have hov : (alookup AMO_STATUS_TO_SHEET_OVERRIDE tname).getD tname = "У курера" := by
            have hd := hdisp
            unfold sheetDisplayOf at hd
            rw [hterm] at hd
            exact hd
          simp only [h1, h2, if_false, hterm, hnotrig, hov]
          constructor <;> split <;> (try split) <;>
            first
            | rfl
            | exact absurd (⟨trivial, trivial⟩ : True ∧ True) (by assumption)
      | none =>
          have hov : (alookup AMO_STATUS_TO_SHEET_OVERRIDE
              ((alookup cfg.statusIdToDisplayName statusId).getD (toString statusId))).getD
              ((alookup cfg.statusIdToDisplayName statusId).getD (toString statusId)) =
              "У курера" := by
            have hd := hdisp
            unfold sheetDisplayOf at hd
            rw [hterm] at hd
            exact hd
          simp only [h1, h2, if_false, hterm, hnotrig, hov]
          constructor <;> split <;> (try split) <;>
            first
            | rfl
            | exact absurd (⟨trivial, trivial⟩ : True ∧ True) (by assumption)

/-- Claim C5: for a lead whose recorded known sheet status is "В процессе", a
webhook observation of a non-trigger status whose resolved sheet display value
is "У курера" (the automatic dispatched status) leaves the worksheet state
and the recorded known-status map unchanged: both the terminal branch and the
already-tracked branch of `process_webhook_leads` suppress the update. -/
theorem c5_precedence_guard (cfg : Cfg) (env : Env) (st : SyncState) (dd : DedupState)
    (ws : WsState) (w : Lead) (t : Int) (fl : Lead)
    (hknown : getKnownSheetStatus st (pyStrip w.id) = "В процессе")
    (hfetch : env.fetchLead (pyStrip w.id) = some fl)
    (hnotrig : fl.statusId ∉ cfg.triggerStatusIds)
    (hdisp : sheetDisplayOf cfg fl.statusId = "У курера") :
    (processOneLead cfg env st dd ws w t).2.2.1 = ws ∧
    (processOneLead cfg env st dd ws w t).1.sheetStatusByLead = st.sheetStatusByLead := by
  by_cases hid : pyStrip w.id = ""
  · simp [processOneLead, hid]
  · have hpad : (processAfterDedup cfg env st ws w (pyStrip w.id) w.statusId t).1 = st ∧
        (processAfterDedup cfg env st ws w (pyStrip w.id) w.statusId t).2.1 = ws := by
      unfold processAfterDedup
      by_cases hexp : isLeadExpired st (pyStrip w.id) t
      · simp [hexp]
      · have hg := applyClassified_guard cfg env st ws fl fl.statusId (pyStrip w.id) t
          hnotrig hdisp
        simp [hexp, hknown, hfetch, hg.1, hg.2]
    rcases hdd : isDuplicateWebhook dd (pyStrip w.id) w.statusId t cfg.dedupTtl with ⟨b, dd2⟩
    cases b
    · rcases hp : processAfterDedup cfg env st ws w (pyStrip w.id) w.statusId t
        with ⟨st2, ws2, r⟩
      rw [hp] at hpad
      have hpa : st2 = st := hpad.1
      have hpb : ws2 = ws := hpad.2
      cases r <;> simp [processOneLead, hid, hdd, hp, hpa, hpb]
    · simp [processOneLead, hid, hdd]

def c5Cfg : Cfg :=
  { triggerStatusIds := [10], terminalStatusIdToName := [("40", "У курера")],
    pipelineIdToName := [], statusIdToDisplayName := [], pipelineDisplayMap := [],
    leadsCreatedAfter := 0, pipelineKeyword := "", dedupTtl := 60,
    triggerStatusName := "NOMERATSIYALANMAGAN ZAKAZ", pipelineIdCfg := 0,
    statusMap := [], displayToId := [], nameToId := [] }

def c5Fl : Lead :=
  { id := "6", price := "", name := "", statusId := 40, pipelineId := 0, updatedAt := 0,
    respUserId := 0, contacts := [], companies := [], customFields := [] }

def c5Env : Env :=
  { fetchLead := fun i => if i = "6" then some c5Fl else none,
    amoGet := fun _ => .error "down", amoPatch := fun _ _ => .ok (),
    staff := [], usersMap := [], fmtDate := fun s => s }

def c5St : SyncState := ⟨[("6", "В процессе")], [("6", "")], []⟩

def c5Ws : WsState := ⟨[COLUMNS], none, 1, 0, false⟩

/-- Witness for claim C5: an automatic "У курера" terminal webhook for lead 6,
whose known sheet status is "В процессе", changes neither the worksheet nor
the recorded status. -/
theorem c5_precedence_guard_witness :
    (processOneLead c5Cfg c5Env c5St [] c5Ws c5Fl 100).2.2.1 = c5Ws ∧
    (processOneLead c5Cfg c5Env c5St [] c5Ws c5Fl 100).1.sheetStatusByLead =
      c5St.sheetStatusByLead :=
  c5_precedence_guard c5Cfg c5Env c5St [] c5Ws c5Fl 100 c5Fl
    (by decide) (by decide) (by decide) (by decide)

/-! ## Authoritative re-fetch (claim C6) -/

/-- Claim C6 (amended): for a webhook lead that passes the expiry check and is
classified for processing, whenever the CRM GET succeeds the status id and
lead values applied to the sheet come from the freshly fetched lead — the
processing is exactly `applyClassified` of the fetched lead, the webhook
payload does not occur in it.  (The unamended claim fails: when the GET
raises, the code falls back to the payload, see the counterexample.) -/
theorem c6_fresh_fetch_when_get_succeeds (cfg : Cfg) (env : Env) (st : SyncState)
    (ws : WsState) (w : Lead) (leadId : String) (t : Int) (fl : Lead)
    (hexp : isLeadExpired st leadId t = false)
    (hcls : w.statusId ∈ cfg.triggerStatusIds ∨
      (alookup cfg.terminalStatusIdToName (toString w.statusId)).isSome = true ∨
      getKnownSheetStatus st leadId ≠ "")
    (hfetch : env.fetchLead leadId = some fl) :
    processAfterDedup cfg env st ws w leadId w.statusId t =
      applyClassified cfg env st ws fl fl.statusId leadId (getKnownSheetStatus st leadId) t := by
  unfold processAfterDedup
  rw [if_neg (by simp [hexp])]
  rw [if_neg (not_not_intro hcls)]
  rw [hfetch]

def c6Cfg : Cfg :=
  { triggerStatusIds := [10], terminalStatusIdToName := [], pipelineIdToName := [],
    statusIdToDisplayName := [], pipelineDisplayMap := [], leadsCreatedAfter := 0,
    pipelineKeyword := "", dedupTtl := 60, triggerStatusName := "NOMERATSIYALANMAGAN ZAKAZ",
    pipelineIdCfg := 0, statusMap := [], displayToId := [], nameToId := [] }

/-- A webhook payload carrying its own field values (price 999). -/
def c6W : Lead :=
  { id := "9", price := "999", name := "Payload Client", statusId := 10, pipelineId := 0,
    updatedAt := 0, respUserId := 0, contacts := [], companies := [], customFields := [] }

/-- Environment in which every CRM GET raises. -/
def c6EnvDown : Env :=
  { fetchLead := fun _ => none, amoGet := fun _ => .error "down",
    amoPatch := fun _ _ => .ok (), staff := [], usersMap := [], fmtDate := fun s => s }

def c6Ws : WsState := ⟨[COLUMNS], none, 1, 0, false⟩

/-- Counterexample to claim C6 as stated: when the re-fetch raises, the values
written to the sheet come from the webhook payload itself — the appended row
is `build_row` of the payload lead, and the payload's price "999" lands in the
Бюджет сделки cell.  So "never from the webhook payload" is false. -/
theorem c6_payload_fallback_counterexample :
    (processAfterDedup c6Cfg c6EnvDown emptySyncState c6Ws c6W "9" c6W.statusId 100).2.2 =
      .ok .triggerWritten ∧
    (processAfterDedup c6Cfg c6EnvDown emptySyncState c6Ws c6W "9" c6W.statusId 100).2.1.grid =
      [COLUMNS,
       buildRow c6Cfg.pipelineDisplayMap c6EnvDown.staff c6EnvDown.fmtDate c6W "В процессе" "" "0"] ∧
    (buildRow c6Cfg.pipelineDisplayMap c6EnvDown.staff c6EnvDown.fmtDate c6W "В процессе" "" "0").get?
        (COLUMNS.indexOf "Бюджет сделки") = some "999" := by
  refine ⟨rfl, ?_, by decide⟩
  decide

/-- The authoritative CRM copy of lead 9 (status 77, price 500 — different
from the payload). -/
def c6Fl : Lead :=
  { id := "9", price := "500", name := "CRM Client", statusId := 77, pipelineId := 0,
    updatedAt := 0, respUserId := 0, contacts := [], companies := [], customFields := [] }

def c6EnvUp : Env :=
  { fetchLead := fun i => if i = "9" then some c6Fl else none,
    amoGet := fun _ => .error "down", amoPatch := fun _ _ => .ok (),
    staff := [], usersMap := [], fmtDate := fun s => s }

/-- Witness for the amended claim C6 at a concrete successful GET. -/
theorem c6_fresh_fetch_when_get_succeeds_witness :
    processAfterDedup c6Cfg c6EnvUp emptySyncState c6Ws c6W "9" c6W.statusId 100 =
      applyClassified c6Cfg c6EnvUp emptySyncState c6Ws c6Fl c6Fl.statusId "9"
        (getKnownSheetStatus emptySyncState "9") 100 :=
  c6_fresh_fetch_when_get_succeeds c6Cfg c6EnvUp emptySyncState c6Ws c6W "9" 100 c6Fl
    rfl (Or.inl (by decide)) rfl

/-! ## Expiry purge reversibility (claim C2) -/

def c2Cfg : Cfg :=
  { triggerStatusIds := [10], terminalStatusIdToName := [("77", "Успешно")],
    pipelineIdToName := [(5, "Main")], statusIdToDisplayName := [(77, "Успешно")],
    pipelineDisplayMap := [], leadsCreatedAfter := 0, pipelineKeyword := "",
    dedupTtl := 60, triggerStatusName := "NOMERATSIYALANMAGAN ZAKAZ", pipelineIdCfg := 5,
    statusMap := [("Успешно", 77)], displayToId := [], nameToId := [] }

def c2Lead : Lead :=
  { id := "555", price := "", name := "", statusId := 77, pipelineId := 5, updatedAt := 0,
    respUserId := 0, contacts := [], companies := [], customFields := [] }

def c2Env : Env :=
  { fetchLead := fun i => if i = "555" then some c2Lead else none,
    amoGet := fun _ => .error "down", amoPatch := fun _ _ => .ok (),
    staff := [], usersMap := [], fmtDate := fun s => s }

def c2RowBefore : List String :=
  ["", "555", "", "", "", "", "", "", "", "", "", "", "", "", "", "", "", "", "", "", "Заказ"]

def c2RowAfter : List String :=
  ["", "555", "", "", "", "", "", "", "", "", "", "", "", "", "", "", "", "", "", "", "Успешно"]

/-- Sheet state before the late webhook: lead 555 still has its row. -/
def c2Ws : WsState := ⟨[COLUMNS, c2RowBefore], none, 0, 0, false⟩

/-- Tracking state while lead 555 is still tracked, expiry armed at t=100. -/
def c2St0 : SyncState := ⟨[("555", "Заказ")], [("555", "")], [("555", 100)]⟩

/-- Claim C2 shown against the code: at t=200 the sweep purges lead 555 from
every SyncState map (the claim's first half holds) — but precisely because the
purge removed the `lead_expiry` key, `is_lead_expired` is false again at
t=300, so a late duplicate terminal webhook for 555 is processed in full: the
sheet status cell is rewritten and fresh tracking state (known status and a
re-armed expiry) is recorded.  Purge is not irreversible; the code contradicts
its own comment ("every subsequent webhook for that lead is ignored"). -/
theorem c2_expiry_purge_not_irreversible :
    expireFinishedLeads c2St0 200 = ⟨[], [], []⟩ ∧
    isLeadExpired (expireFinishedLeads c2St0 200) "555" 300 = false ∧
    processOneLead c2Cfg c2Env ⟨[], [], []⟩ [] c2Ws c2Lead 300 =
      (⟨[("555", "Успешно")], [], [("555", 43500)]⟩, [("555:77", 300)],
       ⟨[COLUMNS, c2RowAfter], some [("555", 2)], 2, 1, false⟩, .ok .terminalWritten) ∧
    (processOneLead c2Cfg c2Env ⟨[], [], []⟩ [] c2Ws c2Lead 300).2.2.1.grid ≠ c2Ws.grid := by
  refine ⟨by decide, rfl, rfl, by decide⟩

/-! ## Order-number fill trigger (claim C8) -/

/-- Claim C8 (amended): for a tracked row whose recorded marker is empty and
whose sheet marker cell is now non-empty, when the CRM GET succeeds and the
PATCH does not raise, `sync_sheet_to_amo` records the new marker value in
SyncState regardless of whether a dispatched status id could be resolved; when
one is resolved, exactly one PATCH moving the lead to the dispatched status
with the marker written to field 987889 is issued.  (The unamended "regardless
of whether the lookup or PATCH succeeded or failed" fails: a raised PATCH
error skips the recording, see the counterexample.) -/
theorem c8_order_marker_recorded_without_raise (cfg : Cfg) (env : Env) (st : SyncState)
    (item : RowItem) (lead : Lead)
    (htr : (alookup st.sheetOrderNumberByLead item.leadId).isSome = true)
    (hko : getKnownOrderNumber st item.leadId = "")
    (hon : item.orderNumber ≠ "")
    (hget : env.amoGet item.leadId = .ok lead)
    (hpatch : ∀ b, env.amoPatch item.leadId b = .ok ()) :
    getKnownOrderNumber (syncOneRowOrder cfg env st item).1 item.leadId = item.orderNumber ∧
    (truthyOpt (resolveDispatchSid cfg lead.pipelineId) = true →
      (syncOneRowOrder cfg env st item).2 =
        [{ statusId := (resolveDispatchSid cfg lead.pipelineId).getD 0,
           pipelineId := if lead.pipelineId ≠ 0 then lead.pipelineId else cfg.pipelineIdCfg,
           orderField := some item.orderNumber }]) ∧
    (truthyOpt (resolveDispatchSid cfg lead.pipelineId) = false →
      (syncOneRowOrder cfg env st item).2 = []) := by
  have hrec : ∀ v, getKnownOrderNumber (rememberSheetOrderNumber st item.leadId v)
      item.leadId = v := fun v => agetD_aset_self _ _ _
  unfold syncOneRowOrder
  rw [if_pos ⟨htr, hko, hon⟩, hget]
  dsimp only
  cases hsid : truthyOpt (resolveDispatchSid cfg lead.pipelineId) with
  | true =>
      rw [if_pos rfl, hpatch]
      exact ⟨hrec item.orderNumber, fun _ => rfl, fun h => absurd h (by decide)⟩
  | false =>
      rw [if_neg (by decide)]
      exact ⟨hrec item.orderNumber, fun h => absurd h (by decide), fun _ => rfl⟩

def c8Cfg : Cfg :=
  { triggerStatusIds := [], terminalStatusIdToName := [], pipelineIdToName := [],
    statusIdToDisplayName := [], pipelineDisplayMap := [], leadsCreatedAfter := 0,
    pipelineKeyword := "", dedupTtl := 60, triggerStatusName := "NOMERATSIYALANMAGAN ZAKAZ",
    pipelineIdCfg := 5, statusMap := [], displayToId := [(5, [("У курера", 42)])],
    nameToId := [] }

def c8Lead : Lead :=
  { id := "7", price := "", name := "", statusId := 20, pipelineId := 5, updatedAt := 0,
    respUserId := 0, contacts := [], companies := [], customFields := [] }

/-- Environment in which the lead GET succeeds but every PATCH raises. -/
def c8EnvPatchFail : Env :=
  { fetchLead := fun _ => none,
    amoGet := fun i => if i = "7" then .ok c8Lead else .error "not found",
    amoPatch := fun _ _ => .error "500", staff := [], usersMap := [], fmtDate := fun s => s }

def c8St : SyncState := ⟨[], [("7", "")], []⟩

def c8Item : RowItem := ⟨"7", "В процессе", "ORD-1"⟩

/-- Counterexample to claim C8 as stated: with a raising PATCH, the order
marker is NOT recorded (the recorded value stays ""), and processing the same
row again issues another PATCH — the fill event does re-trigger. -/
theorem c8_patch_failure_counterexample :
    (syncOneRowOrder c8Cfg c8EnvPatchFail c8St c8Item).1 = c8St ∧
    getKnownOrderNumber (syncOneRowOrder c8Cfg c8EnvPatchFail c8St c8Item).1 "7" = "" ∧
    (syncOneRowOrder c8Cfg c8EnvPatchFail
        (syncOneRowOrder c8Cfg c8EnvPatchFail c8St c8Item).1 c8Item).2 ≠ [] := by
  refine ⟨rfl, rfl, by decide⟩

/-- Environment identical to `c8EnvPatchFail` but with a succeeding PATCH. -/
def c8EnvOk : Env :=
  { fetchLead := fun _ => none,
    amoGet := fun i => if i = "7" then .ok c8Lead else .error "not found",
    amoPatch := fun _ _ => .ok (), staff := [], usersMap := [], fmtDate := fun s => s }

/-- Witness for the amended claim C8 at a concrete fill event. -/
theorem c8_order_marker_recorded_without_raise_witness :
    getKnownOrderNumber (syncOneRowOrder c8Cfg c8EnvOk c8St c8Item).1 c8Item.leadId =
      c8Item.orderNumber ∧
    (truthyOpt (resolveDispatchSid c8Cfg c8Lead.pipelineId) = true →
      (syncOneRowOrder c8Cfg c8EnvOk c8St c8Item).2 =
        [{ statusId := (resolveDispatchSid c8Cfg c8Lead.pipelineId).getD 0,
           pipelineId := if c8Lead.pipelineId ≠ 0 then c8Lead.pipelineId else c8Cfg.pipelineIdCfg,
           orderField := some c8Item.orderNumber }]) ∧
    (truthyOpt (resolveDispatchSid c8Cfg c8Lead.pipelineId) = false →
      (syncOneRowOrder c8Cfg c8EnvOk c8St c8Item).2 = []) :=
  c8_order_marker_recorded_without_raise c8Cfg c8EnvOk c8St c8Item c8Lead
    rfl rfl (by decide) rfl (fun _ => rfl)
